import Mathlib

/-
  Verification development for the SLA penalty computation and caching
  pipeline (FastAPI + SQL services under server/services and
  server/server/routers).

  Modelling conventions:
  * SQL datetimes are modelled in absolute minutes (Int), so
    DATEDIFF(MINUTE, a, b) = b - a.  Where the month key of a datetime
    matters (DuckDB cache file names built from strftime "%Y%m"), a
    timestamp carries its `ym` month key next to its absolute minute
    value.
  * DECIMAL(10,2) money values are modelled as integer cents, so
    500.00 is 50000.  All penalty amounts produced by the SQL are exact
    multiples of 500.00, so this is lossless.
  * SQL `CEILING(CAST(m AS FLOAT) / d)` for minute counts m (tiny
    compared to 2^53) equals the exact rational ceiling of m / d; it is
    modelled by the integer ceiling division `ceilDiv`.
  * Fallible Python paths (database errors, cache-rebuild errors) are
    modelled by explicit failure flags; functions that the code makes
    total by catching exceptions are total here as well.
-/

namespace SLA

/-! ### Arithmetic helper: SQL CEILING of a quotient -/

/-- Ceiling division: CEILING(CAST(a AS FLOAT) / b) for integers, as used
by the penalty formulas (divisors 1440 and 60). -/
def ceilDiv (a b : Int) : Int := -((-a).fdiv b)

/-- For a positive divisor, `ceilDiv a b` is exactly the ceiling of a / b:
the unique integer c with b * (c - 1) < a ≤ b * c. -/
theorem ceilDiv_is_ceiling (a b : Int) (h : 0 < b) :
    b * (ceilDiv a b - 1) < a ∧ a ≤ b * ceilDiv a b := by
  unfold ceilDiv
  rw [Int.fdiv_eq_ediv _ (le_of_lt h)]
  have h1 : (-a) / b * b ≤ -a := Int.ediv_mul_le (-a) (ne_of_gt h)
  have h2 : -a < ((-a) / b + 1) * b := Int.lt_ediv_add_one_mul_self (-a) h
  constructor
  · nlinarith
  · nlinarith

/-! ### Row-level pipeline: the `PenaltyBase` CTE

The three SQL variants (cache_data_service.regenerate_duckdb_cache,
report_data_service.get_detailed_report, dashboard_service.calculate_penalty)
share the interval clipping logic and the OfflineMinutes expression; they
differ in the penalty formula (divisor 1440 vs 60) and in whether the
waiver column `inlSubSubCategory_FRK` is consulted at all. -/

/-- The `eff` CROSS APPLY for a row whose OfflineTime is non-null.
`onlineTime` is `lon.OnlineTime`, `endDate` the `:end_date` parameter,
`nowDate` is GETDATE(). -/
def effectiveEndValue (onlineTime : Option Int) (endDate nowDate : Int) : Int :=
  match onlineTime with
  | some onT => if onT ≤ endDate then onT else endDate
  | none => if nowDate ≤ endDate then nowDate else endDate

/-- The full `eff` CROSS APPLY, including the NULL OfflineTime guard. -/
def effectiveEndForMonth (offlineTime onlineTime : Option Int) (endDate nowDate : Int) :
    Option Int :=
  match offlineTime with
  | none => none
  | some _ => some (effectiveEndValue onlineTime endDate nowDate)

/-- The clipped minutes expression:
CASE WHEN eff < OfflineTime THEN 0 ELSE DATEDIFF(MINUTE, OfflineTime, eff) END. -/
def offlineMinutesExpr (offT effEnd : Int) : Int :=
  if effEnd < offT then 0 else effEnd - offT

/-- The OfflineMinutes column (NULL when OfflineTime is NULL). -/
def offlineMinutes (offlineTime onlineTime : Option Int) (endDate nowDate : Int) :
    Option Int :=
  match offlineTime with
  | none => none
  | some offT => some (offlineMinutesExpr offT (effectiveEndValue onlineTime endDate nowDate))

/-- Per-day penalty formula of `regenerate_duckdb_cache`, in cents:
if minutes >= 1440 then CEILING(minutes / 1440.0) * 500.0 else 0. -/
def penaltyPerDay (m : Int) : Int :=
  if 1440 ≤ m then ceilDiv m 1440 * 50000 else 0

/-- Per-hour penalty formula of `get_detailed_report` and
`calculate_penalty`, in cents: if minutes >= 1440 then
CEILING(minutes / 60.0) * 500.0 else 0. -/
def penaltyPerHour (m : Int) : Int :=
  if 1440 ≤ m then ceilDiv m 60 * 50000 else 0

/-- PenaltyAmount column of the cache-rebuild query
(cache_data_service.regenerate_duckdb_cache): zero when OfflineTime is
NULL or the waiver column `inlSubSubCategory_FRK` is non-null, otherwise
the per-day formula on the clipped minutes. -/
def penaltyAmountCache (offlineTime onlineTime waiverCategory : Option Int)
    (endDate nowDate : Int) : Int :=
  match offlineTime with
  | none => 0
  | some offT =>
    if waiverCategory.isSome then 0
    else penaltyPerDay (offlineMinutesExpr offT (effectiveEndValue onlineTime endDate nowDate))

/-- PenaltyAmount column of the detailed-report query
(report_data_service.get_detailed_report): zero when OfflineTime is NULL,
otherwise the per-hour formula; no waiver column appears anywhere in this
query. -/
def penaltyAmountReport (offlineTime onlineTime : Option Int)
    (endDate nowDate : Int) : Int :=
  match offlineTime with
  | none => 0
  | some offT =>
    penaltyPerHour (offlineMinutesExpr offT (effectiveEndValue onlineTime endDate nowDate))

/-- PenaltyAmount column of the dashboard penalty-sum query
(dashboard_service.calculate_penalty); its SQL text is the same as the
detailed-report variant: per-hour formula, no waiver column. -/
def penaltyAmountDashboard (offlineTime onlineTime : Option Int)
    (endDate nowDate : Int) : Int :=
  match offlineTime with
  | none => 0
  | some offT =>
    penaltyPerHour (offlineMinutesExpr offT (effectiveEndValue onlineTime endDate nowDate))

/-! ### Claims C1 - C3 -/

/-- C1, counterexample.  The claim asserts the per-day formula
ceil(m / 1440) * 500.00 in every code path.  Take a row with
offline_time = 0, online_time = 1440, window end 100000, now 50000 (no
waiver): offline_minutes is 1440, so the claim predicts 500.00 (50000
cents) everywhere; the detailed-report and dashboard paths instead
compute ceil(1440 / 60) * 500.00 = 12000.00 (1200000 cents). -/
theorem C1_report_path_uses_per_hour_formula :
    offlineMinutes (some 0) (some 1440) 100000 50000 = some 1440 ∧
    penaltyAmountReport (some 0) (some 1440) 100000 50000 = 1200000 ∧
    penaltyAmountDashboard (some 0) (some 1440) 100000 50000 = 1200000 ∧
    (1200000 : Int) ≠ 50000 := by
  refine ⟨by decide, by decide, by decide, by decide⟩

/-- C1, amended.  For a row with non-null offline_time, no waiver and
offline_minutes m: every path gives 0.00 when m < 1440; for m >= 1440 the
cache-rebuild path charges ceil(m / 1440) * 500.00 (with the boundary
values 1439 -> 0.00, 1440 -> 500.00, 1441 -> 1000.00, 2880 -> 1000.00),
while the detailed-report and dashboard paths charge
ceil(m / 60) * 500.00.  `ceilDiv` is genuinely the ceiling
(third conjunct). -/
theorem C1_penalty_formula_by_path (offT : Int) (onT : Option Int) (E nowD : Int) :
    (∀ m, offlineMinutes (some offT) onT E nowD = some m →
      (m < 1440 →
        penaltyAmountCache (some offT) onT none E nowD = 0 ∧
        penaltyAmountReport (some offT) onT E nowD = 0 ∧
        penaltyAmountDashboard (some offT) onT E nowD = 0) ∧
      (1440 ≤ m →
        penaltyAmountCache (some offT) onT none E nowD = ceilDiv m 1440 * 50000 ∧
        penaltyAmountReport (some offT) onT E nowD = ceilDiv m 60 * 50000 ∧
        penaltyAmountDashboard (some offT) onT E nowD = ceilDiv m 60 * 50000) ∧
      (1440 * (ceilDiv m 1440 - 1) < m ∧ m ≤ 1440 * ceilDiv m 1440)) ∧
    penaltyPerDay 1439 = 0 ∧ penaltyPerDay 1440 = 50000 ∧
    penaltyPerDay 1441 = 100000 ∧ penaltyPerDay 2880 = 100000 := by
  refine ⟨?_, by decide, by decide, by decide, by decide⟩
  intro m hm
  have hme : m = offlineMinutesExpr offT (effectiveEndValue onT E nowD) := by
    simpa [offlineMinutes] using hm.symm
  subst hme
  refine ⟨?_, ?_, ceilDiv_is_ceiling _ 1440 (by decide)⟩
  · intro hlt
    have hn : ¬ (1440 ≤ offlineMinutesExpr offT (effectiveEndValue onT E nowD)) := by omega
    simp [penaltyAmountCache, penaltyAmountReport, penaltyAmountDashboard,
      penaltyPerDay, penaltyPerHour, hn]
  · intro hle
    simp [penaltyAmountCache, penaltyAmountReport, penaltyAmountDashboard,
      penaltyPerDay, penaltyPerHour, hle]

/-- C1 witness: the amended theorem instantiated at offline_time 0,
online_time 2880, window end 100000, now 50000 (m = 2880). -/
theorem C1_penalty_formula_by_path_witness :
    penaltyAmountCache (some 0) (some 2880) none 100000 50000 = ceilDiv 2880 1440 * 50000 ∧
    penaltyAmountReport (some 0) (some 2880) 100000 50000 = ceilDiv 2880 60 * 50000 := by
  have h := (C1_penalty_formula_by_path 0 (some 2880) 100000 50000).1 2880 (by decide)
  exact ⟨(h.2.1 (by decide)).1, (h.2.1 (by decide)).2.1⟩

/-- C2, counterexample (built below from the full event-log pipeline):
see `C2_report_ignores_waiver` after the event-log model; forward
declaration is avoided by placing it there.  Here: the cache path does
suppress the penalty under a waiver. -/
theorem C2_cache_waiver_suppresses_penalty (offlineTime onlineTime : Option Int)
    (wc : Int) (E nowD : Int) :
    penaltyAmountCache offlineTime onlineTime (some wc) E nowD = 0 := by
  cases offlineTime <;> simp [penaltyAmountCache]

/-- C3.  For a row with non-null offline_time: effective_end is
online_time when online_time <= E, E when online_time > E, now when
online_time is absent and now <= E, and E otherwise; offline_minutes is 0
when effective_end < offline_time and the minute difference otherwise,
hence never negative; and offline_minutes is null when offline_time is
absent. -/
theorem C3_window_clipping (offT : Int) (onT : Option Int) (E nowD : Int) :
    (∀ onv, onT = some onv → onv ≤ E →
      effectiveEndForMonth (some offT) onT E nowD = some onv) ∧
    (∀ onv, onT = some onv → E < onv →
      effectiveEndForMonth (some offT) onT E nowD = some E) ∧
    (onT = none → nowD ≤ E →
      effectiveEndForMonth (some offT) onT E nowD = some nowD) ∧
    (onT = none → E < nowD →
      effectiveEndForMonth (some offT) onT E nowD = some E) ∧
    (∀ e, effectiveEndForMonth (some offT) onT E nowD = some e →
      (e < offT → offlineMinutes (some offT) onT E nowD = some 0) ∧
      (offT ≤ e → offlineMinutes (some offT) onT E nowD = some (e - offT))) ∧
    (∀ m, offlineMinutes (some offT) onT E nowD = some m → 0 ≤ m) ∧
    (∀ onT2 E2 now2, offlineMinutes none onT2 E2 now2 = none) := by
  refine ⟨?_, ?_, ?_, ?_, ?_, ?_, ?_⟩
  · rintro onv rfl hle
    simp [effectiveEndForMonth, effectiveEndValue, hle]
  · rintro onv rfl hgt
    simp [effectiveEndForMonth, effectiveEndValue, not_le.mpr hgt]
  · rintro rfl hle
    simp [effectiveEndForMonth, effectiveEndValue, hle]
  · rintro rfl hgt
    simp [effectiveEndForMonth, effectiveEndValue, not_le.mpr hgt]
  · intro e he
    have he' : effectiveEndValue onT E nowD = e := by
      simpa [effectiveEndForMonth] using he
    constructor
    · intro hlt
      simp [offlineMinutes, offlineMinutesExpr, he', hlt]
    · intro hge
      simp [offlineMinutes, offlineMinutesExpr, he', not_lt.mpr hge]
  · intro m hm
    have hm' : offlineMinutesExpr offT (effectiveEndValue onT E nowD) = m := by
      simpa [offlineMinutes] using hm
    unfold offlineMinutesExpr at hm'
    split at hm' <;> omega
  · intro onT2 E2 now2
    simp [offlineMinutes]

/-- C3 witness: clipping at a concrete still-offline row (online absent,
now 1000 <= window end 2000, offline at 100): effective end is now and
offline_minutes is 900. -/
theorem C3_window_clipping_witness :
    effectiveEndForMonth (some 100) none 2000 1000 = some 1000 ∧
    offlineMinutes (some 100) none 2000 1000 = some 900 ∧
    offlineMinutes none none 2000 1000 = none := by
  have h := C3_window_clipping 100 none 2000 1000
  refine ⟨h.2.2.1 rfl (by decide), ?_, h.2.2.2.2.2.2 none 2000 1000⟩
  have he := h.2.2.1 rfl (by decide)
  have hm := (h.2.2.2.2.1 1000 he).2 (by decide)
  simpa using hm

/-! ### Event-log model and the cache pipeline

The production tables are reduced to the columns the penalty pipeline
reads.  A datetime is a month key (strftime "%Y%m", used for DuckDB cache
file names) together with its absolute minute value. -/

/-- A datetime: its "%Y%m" month key and its absolute-minute value. -/
structure Timestamp where
  ym : Nat
  absMinute : Int
deriving DecidableEq, Repr

/-- The two inlAlarmMessage_TXT patterns the pipeline LIKE-matches, plus
everything else. -/
inductive AlarmMsg where
  | channelDisconnect
  | channelConnected
  | otherMessage
deriving DecidableEq, Repr

/-- An IncidentLog_TBL row (columns read by the pipeline). -/
structure LogEvent where
  prk : Int
  sourceDevice : Int
  zone : Option Int
  time : Timestamp
  msg : AlarmMsg
  subSubCategory : Option Int
deriving DecidableEq, Repr

/-- A Camera_TBL row joined through its TOP (1) GeoRollupCameraLink_TBL
link to the geography ids and the building contract tag the WHERE clause
filters on. -/
structure Camera where
  prk : Int
  zone : Option Int
  street : Option Int
  unit : Option Int
  buildingContract : Option String
deriving DecidableEq, Repr

/-- A cached_report_data row (columns the claims touch). -/
structure PenaltyRow where
  cameraPrk : Int
  zone : Option Int
  street : Option Int
  unit : Option Int
  incidentLogPrk : Option Int
  waiverCategory : Option Int
  offlineTime : Option Int
  onlineTime : Option Int
  effectiveEnd : Option Int
  offlineMins : Option Int
  penaltyAmount : Int
deriving DecidableEq, Repr

/-- The `lo` OUTER APPLY: TOP (1) disconnect timestamp with
inlDateTime_DTM in [start, end), ORDER BY inlDateTime_DTM DESC
(the latest disconnect in the window; NULL if none). -/
def latestDisconnect (cam : Int) (s e : Timestamp) : List LogEvent → Option Int
  | [] => none
  | ev :: rest =>
    let acc := latestDisconnect cam s e rest
    if ev.sourceDevice = cam ∧ s.absMinute ≤ ev.time.absMinute ∧
        ev.time.absMinute < e.absMinute ∧ ev.msg = AlarmMsg.channelDisconnect then
      match acc with
      | none => some ev.time.absMinute
      | some t => if t < ev.time.absMinute then some ev.time.absMinute else some t
    else acc

/-- The `lon` OUTER APPLY: TOP (1) connect timestamp in [start, end) and
strictly after the disconnect, ORDER BY inlDateTime_DTM ASC (the earliest
such connect; NULL if none or if there was no disconnect). -/
def earliestConnect (cam : Int) (s e : Timestamp) (offT : Option Int) :
    List LogEvent → Option Int
  | [] => none
  | ev :: rest =>
    let acc := earliestConnect cam s e offT rest
    match offT with
    | none => none
    | some ot =>
      if ev.sourceDevice = cam ∧ s.absMinute ≤ ev.time.absMinute ∧
          ev.time.absMinute < e.absMinute ∧ ev.msg = AlarmMsg.channelConnected ∧
          ot < ev.time.absMinute then
        match acc with
        | none => some ev.time.absMinute
        | some t => if ev.time.absMinute < t then some ev.time.absMinute else some t
      else acc

/-- The LEFT JOIN of IncidentLog_TBL il ON
il.inlZone_FRK = gr.gclZone_FRK AND il.inlSourceDevice_FRK = cam.Camera_PRK
(SQL null-equality never matches; with no match the row survives with NULL
il columns). -/
def leftJoinIncidents (log : List LogEvent) (cam : Camera) : List (Option LogEvent) :=
  let ms := log.filter (fun ev =>
    match cam.zone, ev.zone with
    | some cz, some ez => decide (cz = ez) && decide (ev.sourceDevice = cam.prk)
    | _, _ => false)
  if ms.isEmpty then [none] else ms.map some

/-- The cache-rebuild PenaltyBase rows contributed by one camera. -/
def buildRowsForCamera (log : List LogEvent) (s e : Timestamp) (nowAbs : Int)
    (cam : Camera) : List PenaltyRow :=
  let offT := latestDisconnect cam.prk s e log
  let onT := earliestConnect cam.prk s e offT log
  (leftJoinIncidents log cam).map (fun il =>
    { cameraPrk := cam.prk
      zone := cam.zone
      street := cam.street
      unit := cam.unit
      incidentLogPrk := il.map (fun ev => ev.prk)
      waiverCategory := il.bind (fun ev => ev.subSubCategory)
      offlineTime := offT
      onlineTime := onT
      effectiveEnd := effectiveEndForMonth offT onT e.absMinute nowAbs
      offlineMins := offlineMinutes offT onT e.absMinute nowAbs
      penaltyAmount :=
        penaltyAmountCache offT onT (il.bind (fun ev => ev.subSubCategory))
          e.absMinute nowAbs })

/-- The full PenaltyBase result of `regenerate_duckdb_cache`: cameras
restricted to bldAlarmContractNumber_TXT = 'PWD'. -/
def regenerateRows (cameras : List Camera) (log : List LogEvent)
    (s e : Timestamp) (nowAbs : Int) : List PenaltyRow :=
  (cameras.filter (fun c => decide (c.buildingContract = some "PWD"))).flatMap
    (buildRowsForCamera log s e nowAbs)

/-- `regenerate_duckdb_cache`: CREATE OR REPLACE of the artifact for the
month of `month_start_date`; all other months' files are untouched. -/
def regenerate_duckdb_cache (cameras : List Camera) (log : List LogEvent)
    (mStart mEnd : Timestamp) (nowAbs : Int)
    (cache : Nat → Option (List PenaltyRow)) : Nat → Option (List PenaltyRow) :=
  fun k => if k = mStart.ym then some (regenerateRows cameras log mStart mEnd nowAbs) else cache k

/-- The penalty the detailed-report query attributes to one camera
(same interval resolution, per-hour formula, no waiver column). -/
def reportPenaltyForCamera (log : List LogEvent) (s e : Timestamp) (nowAbs : Int)
    (cam : Int) : Int :=
  penaltyAmountReport (latestDisconnect cam s e log)
    (earliestConnect cam s e (latestDisconnect cam s e log) log) e.absMinute nowAbs

/-! ### Claim C2 -/

/-- Helper for C2: the UPDATE of `update_incident_log_and_refresh_cache`
applied to one IncidentLog_TBL row. -/
def updEvent (prk subcatId : Int) (ev : LogEvent) : LogEvent :=
  if ev.prk = prk then { ev with subSubCategory := some subcatId } else ev

/-- The UPDATE statement of `update_incident_log_and_refresh_cache`:
SET inlSubSubCategory_FRK = :subcategory_id WHERE IncidentLog_PRK = :prk. -/
def updateIncidentLog (log : List LogEvent) (prk subcatId : Int) : List LogEvent :=
  log.map (updEvent prk subcatId)

theorem updEvent_sourceDevice (prk subcatId : Int) (ev : LogEvent) :
    (updEvent prk subcatId ev).sourceDevice = ev.sourceDevice := by
  unfold updEvent; split <;> rfl

theorem updEvent_time (prk subcatId : Int) (ev : LogEvent) :
    (updEvent prk subcatId ev).time = ev.time := by
  unfold updEvent; split <;> rfl

theorem updEvent_msg (prk subcatId : Int) (ev : LogEvent) :
    (updEvent prk subcatId ev).msg = ev.msg := by
  unfold updEvent; split <;> rfl

theorem latestDisconnect_updateIncidentLog (cam : Int) (s e : Timestamp)
    (log : List LogEvent) (prk subcatId : Int) :
    latestDisconnect cam s e (updateIncidentLog log prk subcatId) =
      latestDisconnect cam s e log := by
  induction log with
  | nil => rfl
  | cons ev rest ih =>
    simp only [updateIncidentLog, List.map_cons, latestDisconnect,
      updEvent_sourceDevice, updEvent_time, updEvent_msg]
    simp only [updateIncidentLog] at ih
    rw [ih]

theorem earliestConnect_updateIncidentLog (cam : Int) (s e : Timestamp)
    (offT : Option Int) (log : List LogEvent) (prk subcatId : Int) :
    earliestConnect cam s e offT (updateIncidentLog log prk subcatId) =
      earliestConnect cam s e offT log := by
  induction log with
  | nil => rfl
  | cons ev rest ih =>
    simp only [updateIncidentLog, List.map_cons, earliestConnect,
      updEvent_sourceDevice, updEvent_time, updEvent_msg]
    simp only [updateIncidentLog] at ih
    rw [ih]

/-- C2, counterexample.  A disconnect event carrying a non-null waiver
category (inlSubSubCategory_FRK = 7) stays offline for 2880 minutes of a
closed window; the detailed-report path still charges
ceil(2880 / 60) * 500.00 = 24000.00 instead of the 0.00 the claim
requires, because that query never reads the waiver column.  The cache
path, by contrast, does suppress it. -/
theorem C2_report_ignores_waiver :
    (LogEvent.subSubCategory
        { prk := 10, sourceDevice := 1, zone := some 1,
          time := { ym := 202401, absMinute := 0 },
          msg := AlarmMsg.channelDisconnect, subSubCategory := some 7 } = some 7) ∧
    reportPenaltyForCamera
      [{ prk := 10, sourceDevice := 1, zone := some 1,
         time := { ym := 202401, absMinute := 0 },
         msg := AlarmMsg.channelDisconnect, subSubCategory := some 7 }]
      { ym := 202401, absMinute := 0 } { ym := 202402, absMinute := 44640 } 2880 1
      = 2400000 ∧
    (2400000 : Int) ≠ 0 ∧
    penaltyAmountCache (some 0) none (some 7) 44640 2880 = 0 := by
  refine ⟨rfl, by decide, by decide, by decide⟩

/-- C2, amended.  A non-null waiver category forces penalty 0.00 in the
cache-rebuild path; the detailed-report path instead computes its penalty
without ever reading inlSubSubCategory_FRK, so waiving an incident (the
workflow's UPDATE) never changes a report-path penalty. -/
theorem C2_waiver_by_path (log : List LogEvent) (prk subcatId : Int)
    (s e : Timestamp) (nowAbs : Int) (cam : Int) :
    (∀ offlineTime onlineTime wc E nowD,
      penaltyAmountCache offlineTime onlineTime (some wc) E nowD = 0) ∧
    reportPenaltyForCamera (updateIncidentLog log prk subcatId) s e nowAbs cam =
      reportPenaltyForCamera log s e nowAbs cam := by
  constructor
  · intro offlineTime onlineTime wc E nowD
    exact C2_cache_waiver_suppresses_penalty offlineTime onlineTime wc E nowD
  · unfold reportPenaltyForCamera
    rw [latestDisconnect_updateIncidentLog, earliestConnect_updateIncidentLog]

/-! ### Waiver workflow (cache_data_service.update_incident_log_and_refresh_cache
and the /api/cache/waive_penalty route) -/

/-- Production event log plus the per-month DuckDB cache files. -/
structure WorkflowState where
  log : List LogEvent
  cache : Nat → Option (List PenaltyRow)

/-- `update_incident_log_and_refresh_cache`: run the UPDATE and commit,
then regenerate the cache for the month of `month_start_date`.  A failing
UPDATE raises before the commit (nothing changes, no rebuild); a failing
rebuild raises after the commit (log change kept, cache untouched).  The
returned Option String is the propagated exception, if any. -/
def update_incident_log_and_refresh_cache (cameras : List Camera)
    (st : WorkflowState) (prk subcatId : Int) (mStart mEnd : Timestamp)
    (nowAbs : Int) (updateFails rebuildFails : Bool) :
    WorkflowState × Option String :=
  if updateFails then (st, some "UPDATE IncidentLog_TBL failed")
  else
    let committed : WorkflowState :=
      { st with log := updateIncidentLog st.log prk subcatId }
    if rebuildFails then (committed, some "ERROR during cache regeneration")
    else
      ({ committed with
          cache := regenerate_duckdb_cache cameras committed.log mStart mEnd nowAbs st.cache },
        none)

/-- Outcome of the waive_penalty route. -/
inductive WaiveOutcome where
  | success (message : String)
  | httpError (statusCode : Nat) (detail : String)
deriving DecidableEq, Repr

/-- The /api/cache/waive_penalty route: calls the workflow with the
request's date_from / date_to as the month window and turns any raised
exception into an HTTP 500 error. -/
def waive_penalty (cameras : List Camera) (st : WorkflowState)
    (prk subcatId : Int) (dateFrom dateTo : Timestamp) (nowAbs : Int)
    (updateFails rebuildFails : Bool) : WorkflowState × WaiveOutcome :=
  let r := update_incident_log_and_refresh_cache cameras st prk subcatId
    dateFrom dateTo nowAbs updateFails rebuildFails
  match r.2 with
  | none => (r.1, WaiveOutcome.success "Penalty waived and cache refreshed.")
  | some e =>
    (r.1, WaiveOutcome.httpError 500 ("Failed to waive penalty and refresh cache: " ++ e))

/-! ### Claim C4 -/

/-- C4, counterexample.  The workflow rebuilds the month of the
request-supplied date_from, not the month of the waived event's
timestamp.  The event lives in 202401, but the request window is
February (ym 202402): after the waiver the 202401 artifact is still
absent (never rebuilt) while the 202402 artifact was created. -/
theorem C4_rebuild_uses_request_month :
    (waive_penalty
        [{ prk := 1, zone := some 1, street := none, unit := none,
           buildingContract := some "PWD" }]
        { log := [{ prk := 10, sourceDevice := 1, zone := some 1,
                    time := { ym := 202401, absMinute := 100 },
                    msg := AlarmMsg.channelDisconnect, subSubCategory := none }],
          cache := fun _ => none }
        10 7 { ym := 202402, absMinute := 44640 } { ym := 202403, absMinute := 84960 }
        50000 false false).1.cache 202401 = none ∧
    (waive_penalty
        [{ prk := 1, zone := some 1, street := none, unit := none,
           buildingContract := some "PWD" }]
        { log := [{ prk := 10, sourceDevice := 1, zone := some 1,
                    time := { ym := 202401, absMinute := 100 },
                    msg := AlarmMsg.channelDisconnect, subSubCategory := none }],
          cache := fun _ => none }
        10 7 { ym := 202402, absMinute := 44640 } { ym := 202403, absMinute := 84960 }
        50000 false false).1.cache 202402 ≠ none := by
  constructor
  · rfl
  · decide

/-- C4, amended.  A successful waiver replaces exactly one cache
artifact - the one for the month of the request's date_from - with the
rebuild over the updated log, and leaves the artifact of every other
month unchanged; the month is taken from the request, not derived from
the waived event's timestamp. -/
theorem C4_waiver_frame (cameras : List Camera) (st : WorkflowState)
    (prk subcatId : Int) (dateFrom dateTo : Timestamp) (nowAbs : Int) :
    (∀ k, k ≠ dateFrom.ym →
      (waive_penalty cameras st prk subcatId dateFrom dateTo nowAbs false false).1.cache k
        = st.cache k) ∧
    (waive_penalty cameras st prk subcatId dateFrom dateTo nowAbs false false).1.cache
        dateFrom.ym
      = some (regenerateRows cameras (updateIncidentLog st.log prk subcatId)
          dateFrom dateTo nowAbs) := by
  constructor
  · intro k hk
    simp [waive_penalty, update_incident_log_and_refresh_cache,
      regenerate_duckdb_cache, hk]
  · simp [waive_penalty, update_incident_log_and_refresh_cache,
      regenerate_duckdb_cache]

/-- C4 witness: the frame theorem at the concrete counterexample state;
month 209905 is untouched and the request month 202402 holds the rebuilt
rows. -/
theorem C4_waiver_frame_witness :
    (waive_penalty
        [{ prk := 1, zone := some 1, street := none, unit := none,
           buildingContract := some "PWD" }]
        { log := [{ prk := 10, sourceDevice := 1, zone := some 1,
                    time := { ym := 202401, absMinute := 100 },
                    msg := AlarmMsg.channelDisconnect, subSubCategory := none }],
          cache := fun _ => none }
        10 7 { ym := 202402, absMinute := 44640 } { ym := 202403, absMinute := 84960 }
        50000 false false).1.cache 209905 = none ∧
    (waive_penalty
        [{ prk := 1, zone := some 1, street := none, unit := none,
           buildingContract := some "PWD" }]
        { log := [{ prk := 10, sourceDevice := 1, zone := some 1,
                    time := { ym := 202401, absMinute := 100 },
                    msg := AlarmMsg.channelDisconnect, subSubCategory := none }],
          cache := fun _ => none }
        10 7 { ym := 202402, absMinute := 44640 } { ym := 202403, absMinute := 84960 }
        50000 false false).1.cache 202402
      = some (regenerateRows
          [{ prk := 1, zone := some 1, street := none, unit := none,
             buildingContract := some "PWD" }]
          (updateIncidentLog
            [{ prk := 10, sourceDevice := 1, zone := some 1,
               time := { ym := 202401, absMinute := 100 },
               msg := AlarmMsg.channelDisconnect, subSubCategory := none }] 10 7)
          { ym := 202402, absMinute := 44640 } { ym := 202403, absMinute := 84960 }
          50000) := by
  have h := C4_waiver_frame
    [{ prk := 1, zone := some 1, street := none, unit := none,
       buildingContract := some "PWD" }]
    { log := [{ prk := 10, sourceDevice := 1, zone := some 1,
                time := { ym := 202401, absMinute := 100 },
                msg := AlarmMsg.channelDisconnect, subSubCategory := none }],
      cache := fun _ => none }
    10 7 { ym := 202402, absMinute := 44640 } { ym := 202403, absMinute := 84960 } 50000
  exact ⟨h.1 209905 (by decide), h.2⟩

/-! ### Claim C5 -/

/-- C5.  If the waiver-category UPDATE fails, nothing changes and no
rebuild runs (the cache is exactly the prior one); if the UPDATE succeeds
and the rebuild fails, the committed log change is kept, the cache is
untouched, and the route surfaces the failure as an HTTP 500 error
rather than a success message. -/
theorem C5_waiver_error_handling (cameras : List Camera) (st : WorkflowState)
    (prk subcatId : Int) (mStart mEnd : Timestamp) (nowAbs : Int) (rb : Bool) :
    ((update_incident_log_and_refresh_cache cameras st prk subcatId mStart mEnd
        nowAbs true rb).1 = st ∧
      (update_incident_log_and_refresh_cache cameras st prk subcatId mStart mEnd
        nowAbs true rb).2.isSome = true) ∧
    ((update_incident_log_and_refresh_cache cameras st prk subcatId mStart mEnd
        nowAbs false true).1.log = updateIncidentLog st.log prk subcatId ∧
      (update_incident_log_and_refresh_cache cameras st prk subcatId mStart mEnd
        nowAbs false true).1.cache = st.cache ∧
      (waive_penalty cameras st prk subcatId mStart mEnd nowAbs false true).2 =
        WaiveOutcome.httpError 500
          "Failed to waive penalty and refresh cache: ERROR during cache regeneration") := by
  refine ⟨⟨?_, ?_⟩, ?_, ?_, ?_⟩ <;>
    simp [update_incident_log_and_refresh_cache, waive_penalty]

/-! ### Claim C7 -/

/-- C7, counterexample.  Two rebuilds of the same month with the same
source log, run at wall-clock minutes 1440 and 2880 (both inside the
window, device still offline), store different artifacts: the
GETDATE()-based effective end moves, so OfflineMinutes grows from 1440
to 2880 and the penalty from 500.00 to 1000.00. -/
theorem C7_rebuild_depends_on_wall_clock :
    regenerate_duckdb_cache
        [{ prk := 1, zone := some 1, street := none, unit := none,
           buildingContract := some "PWD" }]
        [{ prk := 10, sourceDevice := 1, zone := some 1,
           time := { ym := 202401, absMinute := 0 },
           msg := AlarmMsg.channelDisconnect, subSubCategory := none }]
        { ym := 202401, absMinute := 0 } { ym := 202402, absMinute := 44640 }
        1440 (fun _ => none) 202401
      ≠
    regenerate_duckdb_cache
        [{ prk := 1, zone := some 1, street := none, unit := none,
           buildingContract := some "PWD" }]
        [{ prk := 10, sourceDevice := 1, zone := some 1,
           time := { ym := 202401, absMinute := 0 },
           msg := AlarmMsg.channelDisconnect, subSubCategory := none }]
        { ym := 202401, absMinute := 0 } { ym := 202402, absMinute := 44640 }
        2880 (fun _ => none) 202401 := by
  decide

theorem effectiveEndValue_now_past_end (onT : Option Int) (E n1 n2 : Int)
    (h1 : E < n1) (h2 : E < n2) :
    effectiveEndValue onT E n1 = effectiveEndValue onT E n2 := by
  cases onT <;> simp [effectiveEndValue, not_le.mpr h1, not_le.mpr h2]

theorem buildRowsForCamera_now_past_end (log : List LogEvent) (s e : Timestamp)
    (n1 n2 : Int) (h1 : e.absMinute < n1) (h2 : e.absMinute < n2) (cam : Camera) :
    buildRowsForCamera log s e n1 cam = buildRowsForCamera log s e n2 cam := by
  unfold buildRowsForCamera
  have hv := effectiveEndValue_now_past_end
    (earliestConnect cam.prk s e (latestDisconnect cam.prk s e log) log)
    e.absMinute n1 n2 h1 h2
  simp only [effectiveEndForMonth, offlineMinutes, penaltyAmountCache, hv]

/-- C7, amended.  A rebuild is a deterministic function of the event log,
the window and the wall clock; with an unchanged log it is idempotent
whenever the reporting window is already closed (now past window end at
both rebuilds).  For a still-open window the GETDATE() clipping makes two
rebuilds differ, as the counterexample shows. -/
theorem C7_rebuild_idempotent_closed_window (cameras : List Camera)
    (log : List LogEvent) (mStart mEnd : Timestamp) (n1 n2 : Int)
    (cache : Nat → Option (List PenaltyRow))
    (h1 : mEnd.absMinute < n1) (h2 : mEnd.absMinute < n2) :
    regenerate_duckdb_cache cameras log mStart mEnd n1 cache =
      regenerate_duckdb_cache cameras log mStart mEnd n2 cache := by
  have hrows : regenerateRows cameras log mStart mEnd n1 =
      regenerateRows cameras log mStart mEnd n2 := by
    unfold regenerateRows
    have hfun : buildRowsForCamera log mStart mEnd n1 =
        buildRowsForCamera log mStart mEnd n2 := by
      funext cam
      exact buildRowsForCamera_now_past_end log mStart mEnd n1 n2 h1 h2 cam
    rw [hfun]
  funext k
  unfold regenerate_duckdb_cache
  rw [hrows]

/-- C7 witness: two rebuilds of a January window, run at wall-clock
minutes 50000 and 60000 (both after the window end 44640), coincide. -/
theorem C7_rebuild_idempotent_closed_window_witness :
    regenerate_duckdb_cache
        [{ prk := 1, zone := some 1, street := none, unit := none,
           buildingContract := some "PWD" }]
        [{ prk := 10, sourceDevice := 1, zone := some 1,
           time := { ym := 202401, absMinute := 0 },
           msg := AlarmMsg.channelDisconnect, subSubCategory := none }]
        { ym := 202401, absMinute := 0 } { ym := 202402, absMinute := 44640 }
        50000 (fun _ => none)
      =
    regenerate_duckdb_cache
        [{ prk := 1, zone := some 1, street := none, unit := none,
           buildingContract := some "PWD" }]
        [{ prk := 10, sourceDevice := 1, zone := some 1,
           time := { ym := 202401, absMinute := 0 },
           msg := AlarmMsg.channelDisconnect, subSubCategory := none }]
        { ym := 202401, absMinute := 0 } { ym := 202402, absMinute := 44640 }
        60000 (fun _ => none) :=
  C7_rebuild_idempotent_closed_window _ _ _ _ 50000 60000 _ (by decide) (by decide)

/-! ### Cache read path (cache_data_service.query_cached_report_data) -/

/-- The response shape of the report endpoints. -/
structure ReportResponse where
  total_rows : Nat
  data : List PenaltyRow
deriving DecidableEq, Repr

/-- The filter object the query functions read.  The declared pydantic
schema lacks sort_key / sort_dir, but query_cached_report_data reads them,
so they are carried here; date fields are handled separately (see the
date-logic section). -/
structure QueryFilters where
  zone_id : Option (List Int)
  street_id : Option (List Int)
  unit_id : Option (List Int)
  skip : Nat
  limit : Nat
  sort_key : Option String
  sort_dir : Option String

/-- One membership filter: `if filters.xs and len(filters.xs) > 0` emits
`col IN (ids)` (SQL: a NULL column never matches), otherwise `1=1`. -/
def inIdFilter (ids : Option (List Int)) (v : Option Int) : Bool :=
  match ids with
  | none => true
  | some l =>
    if l.isEmpty then true
    else
      match v with
      | none => false
      | some x => decide (x ∈ l)

/-- The combined WHERE clause on zone / street / unit ids. -/
def rowMatchesFilters (f : QueryFilters) (r : PenaltyRow) : Bool :=
  inIdFilter f.zone_id r.zone && inIdFilter f.street_id r.street &&
    inIdFilter f.unit_id r.unit

/-- Sort value of a row under the sort_map column keys embedded here
(name columns of the source map are outside this row model); any other or
missing key falls back to IncidentLog_PRK, as in the source. -/
def sortValue (key : String) (r : PenaltyRow) : Option Int :=
  if key = "PenaltyAmount" then some r.penaltyAmount
  else if key = "OfflineTime" then r.offlineTime
  else if key = "OnlineTime" then r.onlineTime
  else if key = "OfflineMinutes" then r.offlineMins
  else if key = "Camera_PRK" then some r.cameraPrk
  else r.incidentLogPrk

/-- ORDER BY comparison on a nullable column, ascending, NULLS LAST
(DuckDB's default null ordering). -/
def optValLe (a b : Option Int) : Bool :=
  match a, b with
  | none, none => true
  | none, some _ => false
  | some _, none => true
  | some x, some y => decide (x ≤ y)

/-- The ORDER BY relation chosen by sort_key / sort_dir (direction DESC
only when sort_dir is present and lowercases to "desc"). -/
def rowOrderLe (f : QueryFilters) (a b : PenaltyRow) : Bool :=
  let key := match f.sort_key with
    | some k => k
    | none => "IncidentLog_PRK"
  match f.sort_dir with
  | some d =>
    if d.toLower = "desc" then optValLe (sortValue key b) (sortValue key a)
    else optValLe (sortValue key a) (sortValue key b)
  | none => optValLe (sortValue key a) (sortValue key b)

/-- Stable insertion into a sorted list (model of a deterministic,
stable ORDER BY). -/
def insertOrdered (le : PenaltyRow → PenaltyRow → Bool) (x : PenaltyRow) :
    List PenaltyRow → List PenaltyRow
  | [] => [x]
  | y :: ys => if le x y then x :: y :: ys else y :: insertOrdered le x ys

/-- Stable insertion sort (model of a deterministic, stable ORDER BY). -/
def sortOrdered (le : PenaltyRow → PenaltyRow → Bool) :
    List PenaltyRow → List PenaltyRow
  | [] => []
  | x :: xs => insertOrdered le x (sortOrdered le xs)

/-- The filtered and ordered cached table, before LIMIT / OFFSET. -/
def queryCachedRows (art : List PenaltyRow) (f : QueryFilters) : List PenaltyRow :=
  sortOrdered (rowOrderLe f) (art.filter (rowMatchesFilters f))

/-- query_cached_report_data: returns an empty ReportResponse when the
cache artifact for the month is missing (no file or no table) or when
reading it fails (`readFails`); otherwise the filtered page plus the
unpaginated filtered count.  The function is total - no error escapes to
the caller. -/
def query_cached_report_data (cache : Nat → Option (List PenaltyRow))
    (monthStart : Timestamp) (readFails : Bool) (f : QueryFilters) :
    ReportResponse :=
  match cache monthStart.ym with
  | none => { total_rows := 0, data := [] }
  | some art =>
    if readFails then { total_rows := 0, data := [] }
    else
      { total_rows := (art.filter (rowMatchesFilters f)).length
        data := ((queryCachedRows art f).drop f.skip).take f.limit }

/-! ### Claim C6 -/

/-- C6.  Querying the monthly cache returns total_rows = 0 and no data -
rather than raising - whenever the month's artifact is missing or reading
it fails; `query_cached_report_data` is moreover total, so no other
outcome can escape to the caller. -/
theorem C6_missing_cache_returns_empty (cache : Nat → Option (List PenaltyRow))
    (monthStart : Timestamp) (readFails : Bool) (f : QueryFilters) :
    (cache monthStart.ym = none →
      query_cached_report_data cache monthStart readFails f =
        { total_rows := 0, data := [] }) ∧
    (readFails = true →
      query_cached_report_data cache monthStart readFails f =
        { total_rows := 0, data := [] }) := by
  constructor
  · intro h
    simp [query_cached_report_data, h]
  · intro h
    subst h
    unfold query_cached_report_data
    cases cache monthStart.ym <;> simp

/-- C6 witness: a concrete empty cache and a concrete failing read both
yield the empty response. -/
theorem C6_missing_cache_returns_empty_witness :
    query_cached_report_data (fun _ => none) { ym := 202401, absMinute := 0 } false
        { zone_id := none, street_id := none, unit_id := none, skip := 0,
          limit := 500, sort_key := none, sort_dir := none } =
      { total_rows := 0, data := [] } ∧
    query_cached_report_data
        (fun _ => some [{ cameraPrk := 1, zone := none, street := none, unit := none,
                          incidentLogPrk := none, waiverCategory := none, offlineTime := none,
                          onlineTime := none, effectiveEnd := none, offlineMins := none,
                          penaltyAmount := 0 }])
        { ym := 202401, absMinute := 0 } true
        { zone_id := none, street_id := none, unit_id := none, skip := 0,
          limit := 500, sort_key := none, sort_dir := none } =
      { total_rows := 0, data := [] } := by
  constructor
  · exact (C6_missing_cache_returns_empty (fun _ => none)
      { ym := 202401, absMinute := 0 } false
      { zone_id := none, street_id := none, unit_id := none, skip := 0,
        limit := 500, sort_key := none, sort_dir := none }).1 rfl
  · exact (C6_missing_cache_returns_empty
      (fun _ => some [{ cameraPrk := 1, zone := none, street := none, unit := none,
                        incidentLogPrk := none, waiverCategory := none, offlineTime := none,
                        onlineTime := none, effectiveEnd := none, offlineMins := none,
                        penaltyAmount := 0 }])
      { ym := 202401, absMinute := 0 } true
      { zone_id := none, street_id := none, unit_id := none, skip := 0,
        limit := 500, sort_key := none, sort_dir := none }).2 rfl

/-! ### Claim C9: pagination

Both report paths re-execute their ordered query once per page: the
detailed report runs `ORDER BY Camera_PRK OFFSET :skip ROWS FETCH NEXT
:limit ROWS ONLY` against the production database on every request, and
query_cached_report_data runs `ORDER BY sort_column LIMIT .. OFFSET ..`
against the DuckDB file on every request.  Neither engine promises any
particular order among rows that tie on the sort column, and the sort
columns are not unique (Camera_PRK repeats under the NVRChannel fan-out;
PenaltyAmount and the NULL-heavy cache columns tie freely).  One query
execution is therefore modelled as an arbitrary permutation of the
filtered rows that is sorted under the ORDER BY relation, chosen
independently per page. -/

/-- The ORDER BY Camera_PRK relation of the detailed report's data
query. -/
def cameraPrkLe (a b : PenaltyRow) : Bool := decide (a.cameraPrk ≤ b.cameraPrk)

/-- One possible result of one execution of an ordered query: a
permutation of the filtered source rows that is sorted under the ORDER BY
relation.  Rows that tie may come back in any order, and two executions
may order them differently. -/
def IsOrderByExecution (le : PenaltyRow → PenaltyRow → Bool)
    (src result : List PenaltyRow) : Prop :=
  result.Perm src ∧ result.Pairwise (fun a b => le a b = true)

theorem pagesConcatTake {α : Type} (l : List α) (N : Nat) :
    ∀ k, (List.range k).flatMap (fun i => (l.drop (i * N)).take N) = l.take (k * N) := by
  intro k
  induction k with
  | zero => simp
  | succ k ih =>
    rw [List.range_succ, List.flatMap_append, ih]
    simp only [List.flatMap_cons, List.flatMap_nil, List.append_nil]
    rw [Nat.succ_mul, List.take_add]

theorem length_le_pages_mul (len N : Nat) (hN : 0 < N) :
    len ≤ ((len + N - 1) / N) * N := by
  by_contra hc
  push_neg at hc
  have hkn : ((len + N - 1) / N + 1) * N = ((len + N - 1) / N) * N + N := by ring
  have h2 : ((len + N - 1) / N + 1) * N ≤ len + N - 1 := by omega
  have h3 := (Nat.le_div_iff_mul_le hN).mpr h2
  omega

/-- Concatenating all pages of size N of a list reproduces the list. -/
theorem pages_join {α : Type} (l : List α) (N : Nat) (hN : 0 < N) :
    (List.range ((l.length + N - 1) / N)).flatMap
      (fun i => (l.drop (i * N)).take N) = l := by
  rw [pagesConcatTake]
  exact List.take_of_length_le (length_le_pages_mul l.length N hN)

/-- A permutation of a sorted list that is itself sorted is the same
list, provided no two distinct members of the list compare equal both
ways (tie-freedom restricted to the list's members). -/
theorem sorted_perm_eq {α : Type} (le : α → α → Bool) :
    ∀ (l₁ l₂ : List α), l₁.Perm l₂ →
      l₁.Pairwise (fun a b => le a b = true) →
      l₂.Pairwise (fun a b => le a b = true) →
      (∀ a, a ∈ l₁ → ∀ b, b ∈ l₁ → le a b = true → le b a = true → a = b) →
      l₁ = l₂ := by
  intro l₁
  induction l₁ with
  | nil =>
    intro l₂ hp _ _ _
    exact (hp.symm.eq_nil).symm
  | cons a t₁ ih =>
    intro l₂ hp hs₁ hs₂ hanti
    have ha₂ : a ∈ l₂ := hp.mem_iff.mp (List.mem_cons_self a t₁)
    cases l₂ with
    | nil => simp at ha₂
    | cons b t₂ =>
      have hab : a = b := by
        rcases List.mem_cons.mp ha₂ with h | h
        · exact h
        · have hba : le b a = true := (List.pairwise_cons.mp hs₂).1 a h
          have hb₁ : b ∈ a :: t₁ := hp.symm.mem_iff.mp (List.mem_cons_self b t₂)
          rcases List.mem_cons.mp hb₁ with h2 | h2
          · exact h2.symm
          · have hab2 : le a b = true := (List.pairwise_cons.mp hs₁).1 b h2
            exact hanti a (List.mem_cons_self a t₁) b hb₁ hab2 hba
      subst hab
      have hpt : t₁.Perm t₂ := hp.cons_inv
      have ht := ih t₂ hpt (List.pairwise_cons.mp hs₁).2 (List.pairwise_cons.mp hs₂).2
        (fun x hx y hy => hanti x (List.mem_cons_of_mem a hx) y (List.mem_cons_of_mem a hy))
      rw [ht]

/-- Two report rows that tie on the sort key: the same Camera_PRK (1)
twice, as the NVRChannel fan-out produces, distinguished by their
incident columns. -/
def tiedRowA : PenaltyRow :=
  { cameraPrk := 1, zone := none, street := none, unit := none,
    incidentLogPrk := some 100, waiverCategory := none, offlineTime := none,
    onlineTime := none, effectiveEnd := none, offlineMins := none,
    penaltyAmount := 0 }

/-- Second row tying with `tiedRowA` on Camera_PRK. -/
def tiedRowB : PenaltyRow :=
  { cameraPrk := 1, zone := none, street := none, unit := none,
    incidentLogPrk := some 200, waiverCategory := none, offlineTime := none,
    onlineTime := none, effectiveEnd := none, offlineMins := none,
    penaltyAmount := 50000 }

/-- A row with Camera_PRK 2, key-distinct from `tiedRowA`. -/
def keyedRowB : PenaltyRow :=
  { cameraPrk := 2, zone := none, street := none, unit := none,
    incidentLogPrk := some 200, waiverCategory := none, offlineTime := none,
    onlineTime := none, effectiveEnd := none, offlineMins := none,
    penaltyAmount := 50000 }

/-- C9, counterexample.  Both [tiedRowA, tiedRowB] and
[tiedRowB, tiedRowA] are valid executions of the ordered query (the two
rows tie on Camera_PRK), so with page size 1, taking page skip = 0 from
the first execution and page skip = 1 from an independent second
execution concatenates to [tiedRowA, tiedRowA]: tiedRowA is duplicated
and tiedRowB omitted - the concatenation is not even a permutation of
the full result set, refuting the claim as stated. -/
theorem C9_tie_breaks_pagination :
    IsOrderByExecution cameraPrkLe [tiedRowA, tiedRowB] [tiedRowA, tiedRowB] ∧
    IsOrderByExecution cameraPrkLe [tiedRowA, tiedRowB] [tiedRowB, tiedRowA] ∧
    (([tiedRowA, tiedRowB].drop (0 * 1)).take 1 ++
      ([tiedRowB, tiedRowA].drop (1 * 1)).take 1) = [tiedRowA, tiedRowA] ∧
    ¬ ([tiedRowA, tiedRowA] : List PenaltyRow).Perm [tiedRowA, tiedRowB] := by
  refine ⟨⟨List.Perm.refl _, by decide⟩, ⟨List.Perm.swap _ _ _, by decide⟩, rfl, ?_⟩
  intro hperm
  have hmem : tiedRowB ∈ [tiedRowA, tiedRowA] :=
    hperm.mem_iff.mpr (by decide)
  exact absurd hmem (by decide)

/-- C9, amended.  When the ORDER BY relation is tie-free on the filtered
result set (no two distinct result rows compare equal both ways, e.g. a
unique sort key), every valid execution of the ordered query returns the
same list, so concatenating pages skip = 0, N, 2N, ... taken from
independently re-executed queries reproduces the full ordered result
with no duplicate and no omitted rows; with ties this fails, as the
counterexample shows. -/
theorem C9_pagination_unique_key (le : PenaltyRow → PenaltyRow → Bool)
    (src full : List PenaltyRow) (execs : Nat → List PenaltyRow) (N : Nat)
    (hN : 0 < N)
    (hfull : IsOrderByExecution le src full)
    (hexec : ∀ i, IsOrderByExecution le src (execs i))
    (hanti : ∀ a, a ∈ src → ∀ b, b ∈ src →
      le a b = true → le b a = true → a = b) :
    (List.range ((src.length + N - 1) / N)).flatMap
      (fun i => ((execs i).drop (i * N)).take N) = full := by
  have huniq : ∀ res, IsOrderByExecution le src res → res = full := by
    intro res hres
    exact sorted_perm_eq le res full (hres.1.trans hfull.1.symm) hres.2 hfull.2
      (fun a ha b hb h1 h2 =>
        hanti a (hres.1.mem_iff.mp ha) b (hres.1.mem_iff.mp hb) h1 h2)
  have hex : ∀ i, execs i = full := fun i => huniq (execs i) (hexec i)
  have hlen : full.length = src.length := hfull.1.length_eq
  simp only [hex]
  rw [← hlen]
  exact pages_join full N hN

/-- C9 witness: two rows with distinct Camera_PRK (a tie-free key),
every per-page execution returning the same sorted list, page size 1. -/
theorem C9_pagination_unique_key_witness :
    (List.range ((([tiedRowA, keyedRowB] : List PenaltyRow).length + 1 - 1) / 1)).flatMap
        (fun i => (([tiedRowA, keyedRowB] : List PenaltyRow).drop (i * 1)).take 1)
      = [tiedRowA, keyedRowB] := by
  exact C9_pagination_unique_key cameraPrkLe [tiedRowA, keyedRowB]
    [tiedRowA, keyedRowB] (fun _ => [tiedRowA, keyedRowB]) 1 (by decide)
    ⟨List.Perm.refl _, by decide⟩
    (by intro i
        show IsOrderByExecution cameraPrkLe [tiedRowA, keyedRowB] [tiedRowA, keyedRowB]
        exact ⟨List.Perm.refl _, by decide⟩)
    (by decide)

/-! ### Claim C8: dashboard KPI fan-out (dashboard_service.get_dashboard_data) -/

/-- The dashboard response (money in cents). -/
structure DashboardKPIs where
  total_zones : Int
  total_streets : Int
  total_units : Int
  total_open_incidents : Int
  total_closed_incidents : Int
  total_penalty : Int
  error_details : List (String × String)
deriving DecidableEq, Repr

/-- get_dashboard_data: static KPIs plus asyncio.gather of the three KPI
sub-computations with return_exceptions=True; an exception value becomes
0 for its metric and an error_details entry keyed by the metric's task
name, in the task order open, closed, penalty. -/
def get_dashboard_data (zones streets units : Int)
    (openRes closedRes penaltyRes : Except String Int) : DashboardKPIs :=
  { total_zones := zones
    total_streets := streets
    total_units := units
    total_open_incidents :=
      match openRes with
      | Except.ok v => v
      | Except.error _ => 0
    total_closed_incidents :=
      match closedRes with
      | Except.ok v => v
      | Except.error _ => 0
    total_penalty :=
      match penaltyRes with
      | Except.ok v => v
      | Except.error _ => 0
    error_details :=
      (match openRes with
        | Except.error e => [("total_open_incidents", e)]
        | Except.ok _ => []) ++
      (match closedRes with
        | Except.error e => [("total_closed_incidents", e)]
        | Except.ok _ => []) ++
      (match penaltyRes with
        | Except.error e => [("total_penalty", e)]
        | Except.ok _ => []) }

/-- C8.  Each KPI that succeeds keeps its value in the response whatever
happens to the others; each KPI that throws is replaced by zero and adds
an error_details entry keyed by its metric name.  `get_dashboard_data` is
total, so a single metric failure never aborts the response. -/
theorem C8_partial_kpi_failure (z s u : Int) (o c p : Except String Int) :
    (∀ v, o = Except.ok v →
      (get_dashboard_data z s u o c p).total_open_incidents = v) ∧
    (∀ e, o = Except.error e →
      (get_dashboard_data z s u o c p).total_open_incidents = 0 ∧
      ("total_open_incidents", e) ∈ (get_dashboard_data z s u o c p).error_details) ∧
    (∀ v, c = Except.ok v →
      (get_dashboard_data z s u o c p).total_closed_incidents = v) ∧
    (∀ e, c = Except.error e →
      (get_dashboard_data z s u o c p).total_closed_incidents = 0 ∧
      ("total_closed_incidents", e) ∈ (get_dashboard_data z s u o c p).error_details) ∧
    (∀ v, p = Except.ok v →
      (get_dashboard_data z s u o c p).total_penalty = v) ∧
    (∀ e, p = Except.error e →
      (get_dashboard_data z s u o c p).total_penalty = 0 ∧
      ("total_penalty", e) ∈ (get_dashboard_data z s u o c p).error_details) := by
  refine ⟨?_, ?_, ?_, ?_, ?_, ?_⟩ <;> rintro x rfl <;>
    simp [get_dashboard_data]

/-- C8 witness: open and closed counts succeed (3 and 4) while the
penalty sum throws; the response keeps 3 and 4, substitutes penalty 0 and
records the error under the key "total_penalty". -/
theorem C8_partial_kpi_failure_witness :
    (get_dashboard_data 5 6 7 (Except.ok 3) (Except.ok 4)
        (Except.error "penalty query failed")).total_open_incidents = 3 ∧
    (get_dashboard_data 5 6 7 (Except.ok 3) (Except.ok 4)
        (Except.error "penalty query failed")).total_closed_incidents = 4 ∧
    (get_dashboard_data 5 6 7 (Except.ok 3) (Except.ok 4)
        (Except.error "penalty query failed")).total_penalty = 0 ∧
    ("total_penalty", "penalty query failed") ∈
      (get_dashboard_data 5 6 7 (Except.ok 3) (Except.ok 4)
        (Except.error "penalty query failed")).error_details := by
  have h := C8_partial_kpi_failure 5 6 7 (Except.ok 3) (Except.ok 4)
    (Except.error "penalty query failed")
  exact ⟨h.1 3 rfl, h.2.2.1 4 rfl,
    (h.2.2.2.2.2 "penalty query failed" rfl).1,
    (h.2.2.2.2.2 "penalty query failed" rfl).2⟩

/-! ### Claim C10: date-range fallback logic -/

/-- A date_from / date_to request value as the two services test it:
Python None, the empty string, the one-space blank string, or a real
datetime (minute value). -/
inductive DateParam where
  | absent
  | emptyText
  | blankText
  | value (t : Int)
deriving DecidableEq, Repr

/-- report_data_service: has_valid_from / has_valid_to, i.e.
`date not in (None, "", " ")`. -/
def report_has_valid_date : DateParam → Bool
  | DateParam.value _ => true
  | _ => false

/-- Python truthiness of a date value, as tested by
`if filters.date_from and filters.date_to` in calculate_penalty:
None and "" are falsy, " " and datetimes are truthy. -/
def py_truthy_date : DateParam → Bool
  | DateParam.absent => false
  | DateParam.emptyText => false
  | DateParam.blankText => true
  | DateParam.value _ => true

/-- Which reporting window a service ends up using. -/
inductive ReportWindow where
  | custom (dateFrom dateTo : DateParam)
  | previousCalendarMonth
deriving DecidableEq, Repr

/-- The date logic of get_detailed_report: the caller's window only when
both dates pass the has_valid test, else the previous-calendar-month
default (first day of previous month to first day of current month). -/
def report_date_range (dateFrom dateTo : DateParam) : ReportWindow :=
  if report_has_valid_date dateFrom && report_has_valid_date dateTo then
    ReportWindow.custom dateFrom dateTo
  else ReportWindow.previousCalendarMonth

/-- The date logic of calculate_penalty (dashboard penalty sum): the
caller's window when both dates are Python-truthy, else the same
previous-calendar-month default. -/
def dashboard_penalty_date_range (dateFrom dateTo : DateParam) : ReportWindow :=
  if py_truthy_date dateFrom && py_truthy_date dateTo then
    ReportWindow.custom dateFrom dateTo
  else ReportWindow.previousCalendarMonth

/-- C10, counterexample.  With date_from a real datetime and date_to the
blank string " ", the report path falls back to the default window, but
the dashboard penalty path treats " " as truthy and uses the custom
window instead of ignoring the provided date. -/
theorem C10_dashboard_uses_blank_date :
    dashboard_penalty_date_range (DateParam.value 5) DateParam.blankText
      = ReportWindow.custom (DateParam.value 5) DateParam.blankText ∧
    dashboard_penalty_date_range (DateParam.value 5) DateParam.blankText
      ≠ ReportWindow.previousCalendarMonth ∧
    report_date_range (DateParam.value 5) DateParam.blankText
      = ReportWindow.previousCalendarMonth := by
  refine ⟨rfl, by decide, rfl⟩

/-- C10, amended.  When exactly one of date_from / date_to is a real
datetime, the detailed report always falls back to the
previous-calendar-month default; the dashboard penalty sum falls back
when the other value is None or the empty string, but a blank " " string
is truthy there, so the dashboard then uses the custom window. -/
theorem C10_single_date_fallback (t : Int) :
    (∀ other, report_has_valid_date other = false →
      report_date_range (DateParam.value t) other
        = ReportWindow.previousCalendarMonth ∧
      report_date_range other (DateParam.value t)
        = ReportWindow.previousCalendarMonth) ∧
    dashboard_penalty_date_range (DateParam.value t) DateParam.absent
      = ReportWindow.previousCalendarMonth ∧
    dashboard_penalty_date_range DateParam.absent (DateParam.value t)
      = ReportWindow.previousCalendarMonth ∧
    dashboard_penalty_date_range (DateParam.value t) DateParam.emptyText
      = ReportWindow.previousCalendarMonth ∧
    dashboard_penalty_date_range DateParam.emptyText (DateParam.value t)
      = ReportWindow.previousCalendarMonth ∧
    dashboard_penalty_date_range (DateParam.value t) DateParam.blankText
      = ReportWindow.custom (DateParam.value t) DateParam.blankText ∧
    dashboard_penalty_date_range DateParam.blankText (DateParam.value t)
      = ReportWindow.custom DateParam.blankText (DateParam.value t) := by
  refine ⟨?_, rfl, rfl, rfl, rfl, rfl, rfl⟩
  intro other h
  constructor <;> simp [report_date_range, h]

/-- C10 witness: the amended theorem at date 5 with the other value
None. -/
theorem C10_single_date_fallback_witness :
    report_date_range (DateParam.value 5) DateParam.absent
      = ReportWindow.previousCalendarMonth ∧
    dashboard_penalty_date_range (DateParam.value 5) DateParam.absent
      = ReportWindow.previousCalendarMonth := by
  have h := C10_single_date_fallback 5
  exact ⟨(h.1 DateParam.absent rfl).1, h.2.1⟩

end SLA
